import Mathlib

/-!
Verification of the risk scoring & pricing engine of ConsignP2P-QITech.

The numerical code (src/risk/calculators/pmt.py, src/risk/calculators/cet.py,
src/risk/views.py, src/risk/serializers.py, src/risk/services/registry.py,
src/risk/odds.py, src/consign_app/api/feature_builder.py) is shallowly embedded
here. Python floats are modelled as exact rationals (ℚ) where the code is
purely arithmetic, and as reals (ℝ) where it uses transcendental functions
(log/exp/sqrt). Python's `round` (banker's rounding, round-half-to-even) is
modelled explicitly. Fallible code (`raise`) is modelled with `Option`.
-/

namespace ConsignP2P

/-! ### Python-style rounding (round-half-to-even)

`round(x)` in Python rounds to the nearest integer, ties to the even
neighbour. `round(x, k)` scales by `10^k`, rounds, and scales back. -/

def pythonRound {α : Type} [LinearOrderedField α] [FloorRing α] [DecidableEq α]
    (x : α) : ℤ :=
  if Int.fract x = 1/2 then (if Even ⌊x⌋ then ⌊x⌋ else ⌊x⌋ + 1) else round x

/-- Python `round(q, 2)` on an exact rational. -/
def round2 (q : ℚ) : ℚ := (pythonRound (q * 100) : ℚ) / 100

/-- Python `round(q, 6)` on an exact rational. -/
def round6 (q : ℚ) : ℚ := (pythonRound (q * 1000000) : ℚ) / 1000000

/-! ### src/risk/calculators/pmt.py -/

/-- `pmt_price(rate_monthly, n_months, pv)`: fixed installment of a PRICE
(annuity) schedule.  `none` models the `ValueError` raised when
`n_months <= 0` (the `n : ℕ` argument makes `n = 0` the only such case). -/
def pmt_price (rate_monthly : ℚ) (n_months : ℕ) (pv : ℚ) : Option ℚ :=
  if n_months = 0 then none
  else if rate_monthly = 0 then some (pv / n_months)
  else some (pv * ((rate_monthly * (1 + rate_monthly) ^ n_months) /
                   ((1 + rate_monthly) ^ n_months - 1)))

/-- `eff_annual_from_monthly(rate_monthly) = (1 + i)^12 - 1`. -/
def eff_annual_from_monthly (rate_monthly : ℚ) : ℚ := (1 + rate_monthly) ^ 12 - 1

/-- One row of `amortization_schedule` (dict with periodo, saldo_ini, juros,
amortizacao, parcela, saldo_fim; all money fields rounded to 2 decimals). -/
structure ScheduleRow where
  periodo : ℕ
  saldo_ini : ℚ
  juros : ℚ
  amortizacao : ℚ
  parcela : ℚ
  saldo_fim : ℚ
  deriving Repr, DecidableEq

/-- The loop body of `amortization_schedule`: at each period, interest =
balance × rate, principal component = installment − interest, balance is
updated with the unrounded value while the stored row holds 2-decimal
rounded values (`saldo_fim` is clamped below by 0 for display). -/
def scheduleRows (r pmt : ℚ) (fuel t : ℕ) (saldo : ℚ) : List ScheduleRow :=
  if fuel = 0 then []
  else
    let juros := saldo * r
    let amort := pmt - juros
    let saldo_fim := saldo - amort
    { periodo := t, saldo_ini := round2 saldo, juros := round2 juros,
      amortizacao := round2 amort, parcela := round2 pmt,
      saldo_fim := round2 (max saldo_fim 0) } ::
      scheduleRows r pmt (fuel - 1) (t + 1) saldo_fim
termination_by fuel
decreasing_by omega

/-- `amortization_schedule(pv, rate_monthly, n_months)`; `none` propagates the
`ValueError` from `pmt_price` when `n_months <= 0`. -/
def amortization_schedule (pv rate_monthly : ℚ) (n_months : ℕ) :
    Option (List ScheduleRow) :=
  (pmt_price rate_monthly n_months pv).map
    (fun pmt => scheduleRows rate_monthly pmt n_months 1 pv)

/-! ### src/risk/calculators/cet.py -/

/-- Helper for `npv`: discounted sum of the cashflows starting at period `t`. -/
def npvAux (r : ℚ) : ℕ → List ℚ → ℚ
  | _, [] => 0
  | t, cf :: rest => cf / (1 + r) ^ t + npvAux r (t + 1) rest

/-- `npv(rate, cashflows)`: net present value `Σ cf_t / (1+r)^t`. -/
def npv (rate : ℚ) (cashflows : List ℚ) : ℚ := npvAux rate 0 cashflows

/-- Helper for `dnpv` (derivative of NPV w.r.t. the rate), indices from 1. -/
def dnpvAux (r : ℚ) : ℕ → List ℚ → ℚ
  | _, [] => 0
  | t, cf :: rest => -((t : ℚ) * cf / (1 + r) ^ (t + 1)) + dnpvAux r (t + 1) rest

/-- The local `dnpv` of `irr_newton_bisection`: `Σ_{t≥1} -t·cf_t/(1+r)^(t+1)`
over `cashflows[1:]`. -/
def dnpv (rate : ℚ) (cashflows : List ℚ) : ℚ := dnpvAux rate 1 cashflows.tail

/-- The default Newton/bisection bracket `(-0.9999, 1.0)`. -/
def irrBracket : ℚ × ℚ := (-(9999/10000), 1)

/-- The convergence tolerance `1e-10` on the NPV residual. -/
def irrTol : ℚ := 1 / 10 ^ 10

/-- The Newton-Raphson loop of `irr_newton_bisection` (`max_iter` as fuel).
`some r` models an early `return r`; `none` models falling through to the
bisection fallback (`break` on zero derivative or an iterate leaving the
bracket, or loop exhaustion).  `math.isfinite` checks cannot fail on exact
rationals and are omitted. -/
def newtonSteps (cashflows : List ℚ) (fuel : ℕ) (r : ℚ) : Option ℚ :=
  if fuel = 0 then none
  else
    let f := npv r cashflows
    if |f| < irrTol then some r
    else
      let df := dnpv r cashflows
      if df = 0 then none
      else
        let rn := r - f / df
        if rn ≤ irrBracket.1 ∨ irrBracket.2 ≤ rn then none
        else newtonSteps cashflows (fuel - 1) rn
termination_by fuel
decreasing_by omega

/-- The bisection loop of `irr_newton_bisection` (200 iterations as fuel);
returns the midpoint when the fuel is exhausted. -/
def bisectSteps (cashflows : List ℚ) (fuel : ℕ) (a b fa fb : ℚ) : ℚ :=
  if fuel = 0 then (a + b) / 2
  else
    let m := (a + b) / 2
    let fm := npv m cashflows
    if |fm| < irrTol then m
    else if fa * fm ≤ 0 then bisectSteps cashflows (fuel - 1) a m fa fm
    else bisectSteps cashflows (fuel - 1) m b fm fb
termination_by fuel
decreasing_by all_goals omega

/-- `irr_newton_bisection(cashflows, guess)`: Newton-Raphson first; on failure,
bisection over `(-0.9999, 1.0)`, expanding to `(-0.9999, 3.0)` when the
initial bracket does not change sign; when even the expanded bracket does not
change sign, the original `guess` is returned ("último recurso"). -/
def irr_newton_bisection (cashflows : List ℚ) (guess : ℚ) : ℚ :=
  match newtonSteps cashflows 100 guess with
  | some r => r
  | none =>
    let a := irrBracket.1
    let b := irrBracket.2
    let fa := npv a cashflows
    let fb := npv b cashflows
    if fa * fb > 0 then
      let a2 : ℚ := -(9999/10000)
      let b2 : ℚ := 3
      let fa2 := npv a2 cashflows
      let fb2 := npv b2 cashflows
      if fa2 * fb2 > 0 then guess
      else bisectSteps cashflows 200 a2 b2 fa2 fb2
    else bisectSteps cashflows 200 a b fa fb

/-- The optional `fees` dict of `cet_from_flows` (absent keys default to 0). -/
structure Fees where
  upfront : ℚ
  monthly : ℚ
  disbursement_discount : ℚ
  deriving Repr, DecidableEq

/-- The cash-flow series of `cet_from_flows`:
`[pv - upfront - disbursement_discount] + [-(pmt + monthly_fee)] * n`. -/
def mkFlows (pv : ℚ) (fees : Fees) (pmt : ℚ) (n : ℕ) : List ℚ :=
  (pv - fees.upfront - fees.disbursement_discount) ::
    List.replicate n (-(pmt + fees.monthly))

/-- `cet_from_flows(pv, rate_monthly, n_months, fees)`: monthly and annual CET
as the IRR of the fee-adjusted cash flows, with `rate_monthly` as the Newton
guess.  `none` propagates the `ValueError` of `pmt_price`. -/
def cet_from_flows (pv rate_monthly : ℚ) (n_months : ℕ) (fees : Fees) :
    Option (ℚ × ℚ) :=
  (pmt_price rate_monthly n_months pv).map fun pmt =>
    let cashflows := mkFlows pv fees pmt n_months
    let cet_m := irr_newton_bisection cashflows rate_monthly
    (cet_m, (1 + cet_m) ^ 12 - 1)

/-- The condition under which the bisection fallback of `irr_newton_bisection`
fails to bracket a root even after expanding the bracket to `(-0.9999, 3.0)`:
the NPV has the same (nonzero-product) sign at both ends of both brackets. -/
def bracketFailsAfterExpansion (cashflows : List ℚ) : Prop :=
  npv irrBracket.1 cashflows * npv irrBracket.2 cashflows > 0 ∧
  npv (-(9999/10000)) cashflows * npv 3 cashflows > 0

instance (cashflows : List ℚ) : Decidable (bracketFailsAfterExpansion cashflows) := by
  unfold bracketFailsAfterExpansion; infer_instance

/-! ### src/risk/serializers.py -/

/-- A JSON `features` object: an association list from feature names to
numbers.  Non-numeric JSON values (which would make `float(...)` raise later)
are outside this model. -/
abbrev FMap : Type := List (String × ℚ)

/-- `FEATURE_ORDER`: the 15 canonical feature names. -/
def FEATURE_ORDER : List String :=
  ["beneficio_ativo", "tempo_beneficio_meses",
   "emprego_ativo", "tempo_emprego_meses",
   "renda_media_6m", "coef_var_renda", "pct_meses_saldo_neg_6m",
   "utilizacao_cartao", "pct_minimo_pago_3m", "num_faturas_vencidas_3m",
   "endividamento_total", "parcelas_renda", "DPD_max_12m",
   "idade", "tempo_rel_banco_meses"]

/-- The JSON payload of a scoring request.  `features = none` models both a
missing `features` key and a non-object `features` value. -/
structure Payload where
  features : Option FMap
  amount : Option ℚ
  term_months : Option ℤ
  fees : Option Fees

/-- `ScoreRequest.from_json`: raises (`none`) iff `features` is absent or not
a JSON object; `amount`, `term_months` and `fees` are passed through. -/
def from_json (p : Payload) : Option (FMap × Option ℚ × Option ℤ × Option Fees) :=
  match p.features with
  | none => none
  | some f => some (f, p.amount, p.term_months, p.fees)

/-- `ScoreRequest.to_feature_vector`: raises (`none`) iff any of the 15 keys
of `FEATURE_ORDER` is absent from `features`. -/
def to_feature_vector (f : FMap) : Option (List ℚ) :=
  if FEATURE_ORDER.all (fun k => (f.lookup k).isSome) then
    some (FEATURE_ORDER.map fun k => (f.lookup k).getD 0)
  else none

/-! ### src/risk/views.py — score_view -/

/-- `expected_cols`: the 16 training columns of `score_view` (the 15 features
plus the derived `"ambos"`). -/
def expected_cols : List String :=
  ["beneficio_ativo",
   "tempo_beneficio_meses",
   "emprego_ativo",
   "tempo_emprego_meses",
   "renda_media_6m",
   "coef_var_renda",
   "pct_meses_saldo_neg_6m",
   "utilizacao_cartao",
   "pct_minimo_pago_3m",
   "num_faturas_vencidas_3m",
   "endividamento_total",
   "parcelas_renda",
   "DPD_max_12m",
   "idade",
   "tempo_rel_banco_meses",
   "ambos"]

/-- The input row `score_view` builds for the classifier:
`f["ambos"] = int(bool(f.get("beneficio_ativo", 0)) and bool(f.get("emprego_ativo", 0)))`
(numeric truthiness: nonzero), then
`row = {c: float(f.get(c, 0.0)) for c in expected_cols}`.  Setting the
`"ambos"` key of the dict is modelled by prepending the binding (shadowing any
caller-supplied `"ambos"`). -/
def scoreViewRow (f : FMap) : List ℚ :=
  let ambos : ℚ :=
    if (f.lookup "beneficio_ativo").getD 0 ≠ 0 ∧ (f.lookup "emprego_ativo").getD 0 ≠ 0
    then 1 else 0
  let f2 : FMap := ("ambos", ambos) :: f
  expected_cols.map (fun c => (f2.lookup c).getD 0)

/-- The `installment` / `cet_monthly` / `cet_yearly` / `fees_error` fields of
the `score_view` response when `amount` and `term_months` are supplied.
`fees_error = true` models the `except` branch attaching the diagnostic
string and nulling the three numeric fields. -/
structure CetFields where
  installment : Option ℚ
  cet_monthly : Option ℚ
  cet_yearly : Option ℚ
  fees_error : Bool
  deriving Repr, DecidableEq

/-- The fees block of `score_view` (lines 74–94): `pmt_price`, then
`cet_from_flows`; any exception yields nulls plus `fees_error`. -/
def scoreViewCet (rate amount : ℚ) (term_months : ℕ) (fees : Fees) : CetFields :=
  match pmt_price rate term_months amount with
  | none => ⟨none, none, none, true⟩
  | some pmt =>
    match cet_from_flows amount rate term_months fees with
    | none => ⟨none, none, none, true⟩
    | some (m, y) => ⟨some (round2 pmt), some (round6 m), some (round6 y), false⟩

/-- The set of keys of the JSON response of `score_view`: the seven base keys
always, and — only when both `amount` and `term_months` are supplied — either
the success keys (`installment`, `cet_monthly`, `cet_yearly`, `fees`) or the
failure keys (`installment`, `cet_monthly`, `cet_yearly`, `fees_error`),
`cetOk` distinguishing the two branches of the `try`. -/
def scoreViewKeys (amount : Option ℚ) (term_months : Option ℤ) (cetOk : Bool) :
    List String :=
  ["pd", "score", "band", "rate_monthly", "rate_yearly_eff", "model", "pricing"] ++
  (match amount, term_months with
   | some _, some _ =>
     if cetOk then ["installment", "cet_monthly", "cet_yearly", "fees"]
     else ["installment", "cet_monthly", "cet_yearly", "fees_error"]
   | _, _ => [])

/-! ### src/risk/services/registry.py — _PricingWrapper -/

/-- The dict returned by `_PricingWrapper.components(pd_12m, n_months, ...)`. -/
structure UEComponents where
  pd_12m : ℚ
  lgd : ℚ
  ead_avg_pct : ℚ
  el_over_P : ℚ
  risk_component_monthly : ℚ
  funding : ℚ
  opex : ℚ
  margin_target : ℚ
  i_min : ℚ
  deriving Repr, DecidableEq

/-- `_PricingWrapper.components`: `el_over_P = pd·lgd·0.5`,
`risk_month = el_over_P / (max(n_months, 1)/12)`,
`i_min = funding + opex + risk_month + margin`.  The `lgd`/`funding`/`opex`/
`margin` configuration defaults are passed explicitly. -/
def components (pd_12m : ℚ) (n_months : ℤ) (lgd funding opex margin : ℚ) :
    UEComponents :=
  let el_over_P := pd_12m * lgd * (1/2)
  let risk_month := el_over_P / (((max n_months 1 : ℤ) : ℚ) / 12)
  { pd_12m := pd_12m, lgd := lgd, ead_avg_pct := 1/2, el_over_P := el_over_P,
    risk_component_monthly := risk_month, funding := funding, opex := opex,
    margin_target := margin, i_min := funding + opex + risk_month + margin }

/-! ### src/risk/odds.py — Scorecard

`math.log`/`math.exp` are modelled over ℝ with `Real.log`/`Real.exp`, so these
definitions are noncomputable; Python's `int(round(x))` is `pythonRound`. -/

structure Scorecard where
  S0 : ℝ
  O0 : ℝ
  PDO : ℝ
  pd_floor : ℝ
  pd_ceiling : ℝ
  score_min : ℤ
  score_max : ℤ

/-- `self._k = PDO / ln 2`. -/
noncomputable def Scorecard.k (c : Scorecard) : ℝ := c.PDO / Real.log 2

/-- `pd_to_odds(pd) = (1 - pd) / pd`. -/
noncomputable def pd_to_odds (pd : ℝ) : ℝ := (1 - pd) / pd

/-- `odds_to_pd(odds) = 1 / (1 + odds)`. -/
noncomputable def odds_to_pd (odds : ℝ) : ℝ := 1 / (1 + odds)

/-- `pd_clip(pd) = max(pd_floor, min(pd_ceiling, pd))`. -/
noncomputable def Scorecard.pd_clip (c : Scorecard) (pd : ℝ) : ℝ :=
  max c.pd_floor (min c.pd_ceiling pd)

/-- `pd_to_score(pd)`: clip the PD, take log-odds against the reference odds,
scale by `PDO/ln 2`, clamp to `[score_min, score_max]`, round to an integer. -/
noncomputable def Scorecard.pd_to_score (c : Scorecard) (pd : ℝ) : ℤ :=
  pythonRound (max (c.score_min : ℝ) (min (c.score_max : ℝ)
    (c.S0 + c.k * Real.log (pd_to_odds (c.pd_clip pd) / c.O0))))

/-- `score_to_pd(score)`: clamp the integer score, exponentiate back to odds,
convert to a PD and clip it. -/
noncomputable def Scorecard.score_to_pd (c : Scorecard) (score : ℤ) : ℝ :=
  c.pd_clip (odds_to_pd (c.O0 *
    Real.exp (((max c.score_min (min c.score_max score) : ℤ) - c.S0) / c.k)))

/-- The log-odds of a probability, used to state the round-trip bound of the
scorecard ("odds movement" is measured on this logarithmic scale). -/
noncomputable def logOdds (p : ℝ) : ℝ := Real.log (pd_to_odds p)

/-! ### src/consign_app/api/feature_builder.py — 6-month income statistics

One transaction record: `ym` is `bookingDate[:7]` (`none` models a missing
`bookingDate`, which the loop skips), `amount` is `_parse_money(amount)` and
`cdt` is `(creditDebitType or "").upper()`, i.e. the already upper-cased
type text that the loop compares against `"CREDIT"`/`"DEBIT"`.
The per-account fetch loops are modelled as a single flattened transaction
list, since all accounts accumulate into the same two per-month dicts. -/
structure Tx where
  ym : Option String
  amount : ℚ
  cdt : String

/-- The accumulation loop filling `income_per_month` and `net_per_month`:
both dicts are zero-initialised over the 6-month window; transactions outside
the window (or without a booking date) are skipped; `CREDIT` adds to both,
`DEBIT` subtracts from net only. -/
def monthlyAccum (months6 : List String) (txs : List Tx) :
    (String → ℚ) × (String → ℚ) :=
  txs.foldl
    (fun acc tx =>
      match tx.ym with
      | none => acc
      | some ym =>
        if ym ∈ months6 then
          if tx.cdt = "CREDIT" then
            (Function.update acc.1 ym (acc.1 ym + tx.amount),
             Function.update acc.2 ym (acc.2 ym + tx.amount))
          else if tx.cdt = "DEBIT" then
            (acc.1, Function.update acc.2 ym (acc.2 ym - tx.amount))
          else acc
        else acc)
    (fun _ => 0, fun _ => 0)

/-- `monthly_vals = [income_per_month[m] for m in months6]` (months with no
activity stay 0). -/
def monthly_vals (months6 : List String) (txs : List Tx) : List ℚ :=
  months6.map (monthlyAccum months6 txs).1

/-- `total_income_6m = sum(monthly_vals)`. -/
def total_income_6m (months6 : List String) (txs : List Tx) : ℚ :=
  (monthly_vals months6 txs).sum

/-- `renda_media_6m = total_income_6m / 6` (the guard `if Decimal(6) > 0` is
kept although trivially true). -/
def renda_media_6m (months6 : List String) (txs : List Tx) : ℚ :=
  if (6 : ℚ) > 0 then total_income_6m months6 txs / 6 else 0

/-- `coef_var_renda`: 0 unless total income is positive; otherwise the sample
standard deviation (denominator 5) of the 6 monthly values divided by the
mean.  `Decimal.sqrt` is modelled as the exact `Real.sqrt`. -/
noncomputable def coef_var_renda (months6 : List String) (txs : List Tx) : ℝ :=
  if total_income_6m months6 txs > 0 then
    let mean : ℚ := total_income_6m months6 txs / 6
    let variance : ℚ :=
      ((monthly_vals months6 txs).map (fun x => (x - mean) ^ 2)).sum / 5
    if mean ≠ 0 then Real.sqrt (variance : ℝ) / (mean : ℝ) else 0
  else 0

/-- `pct_meses_saldo_neg_6m = count(net_per_month[m] < 0) / 6`. -/
def pct_meses_saldo_neg_6m (months6 : List String) (txs : List Tx) : ℚ :=
  ((months6.countP (fun m => decide ((monthlyAccum months6 txs).2 m < 0)) : ℕ) : ℚ) / 6

/-- The spec's formulation of the coefficient-of-variation numerator: the
sample standard deviation, with denominator `n − 1 = 5`, of the 6 monthly
income values (mean taken over all 6 buckets). -/
noncomputable def sampleStdSpec6 (vals : List ℚ) : ℝ :=
  Real.sqrt (((vals.map (fun x => (x - vals.sum / 6) ^ 2)).sum / 5 : ℚ) : ℝ)

/-- Test fixture: the last six calendar months of the §8.7 scenario. -/
def months6Example : List String :=
  ["2025-05", "2025-06", "2025-07", "2025-08", "2025-09", "2025-10"]

/-- Test fixture: credits of 1000 and 2000 in only two of the six months. -/
def txsTwoCredits : List Tx :=
  [⟨some "2025-09", 1000, "CREDIT"⟩, ⟨some "2025-10", 2000, "CREDIT"⟩]

/-- Test fixture: the two credits plus one debit making one month's net
negative. -/
def txsWithDebit : List Tx :=
  txsTwoCredits ++ [⟨some "2025-07", 300, "DEBIT"⟩]

/-! ### Eligibility evaluation (consign_app.api.helper)

Modelled from the spec: `analyze_eligibility` is imported by
`consign_app/api/views.py` from `consign_app.api.helper`, a module that is not
among the sources (only its caller is).  Spec §4.5: band at or above
`min_band` on the ordered scale A > B > C > D > E, otherwise reason
`score_insuficiente(<min_band)`; `installment / monthly_income` must not
exceed `max_income_ratio`, otherwise reason `parcela_acima_Npct_renda` with
`N` the configured percentage; the two checks run independently, `reasons`
accumulates every failing rule, and `eligible = (reasons is empty)`. -/
structure EligibilityDecision where
  eligible : Bool
  reasons : List String
  band : String
  installment : ℚ
  monthly_income : ℚ

/-- Modelled from the spec: position of a band on the ordered scale
A > B > C > D > E (higher is better; unknown bands rank lowest). -/
def bandRank : String → ℕ
  | "A" => 5
  | "B" => 4
  | "C" => 3
  | "D" => 2
  | "E" => 1
  | _ => 0

/-- Modelled from the spec: the eligibility evaluator (see the section
comment above; `consign_app.api.helper` is missing from the sources). -/
def evaluate (band : String) (installment monthly_income : ℚ)
    (min_band : String) (max_income_ratio : ℚ) : EligibilityDecision :=
  let r1 : List String :=
    if bandRank band < bandRank min_band
    then ["score_insuficiente(<" ++ min_band ++ ")"] else []
  let r2 : List String :=
    if installment / monthly_income > max_income_ratio
    then ["parcela_acima_" ++ toString (⌊max_income_ratio * 100⌋.toNat) ++ "pct_renda"]
    else []
  let reasons := r1 ++ r2
  { eligible := reasons.isEmpty, reasons := reasons, band := band,
    installment := installment, monthly_income := monthly_income }

/-! ## Helper lemmas -/

theorem scheduleRows_zero (r pmt : ℚ) (t : ℕ) (saldo : ℚ) :
    scheduleRows r pmt 0 t saldo = [] := by
  rw [scheduleRows]; simp

theorem scheduleRows_step (r pmt : ℚ) (fuel t : ℕ) (saldo : ℚ) (h : ¬fuel = 0) :
    scheduleRows r pmt fuel t saldo =
      { periodo := t, saldo_ini := round2 saldo, juros := round2 (saldo * r),
        amortizacao := round2 (pmt - saldo * r), parcela := round2 pmt,
        saldo_fim := round2 (max (saldo - (pmt - saldo * r)) 0) } ::
        scheduleRows r pmt (fuel - 1) (t + 1) (saldo - (pmt - saldo * r)) := by
  rw [scheduleRows]; simp [h]

/-- Shifting the period index of `npvAux` by one divides the value by `1+r`. -/
theorem npvAux_succ (r : ℚ) (xs : List ℚ) : ∀ t : ℕ,
    npvAux r (t + 1) xs = npvAux r t xs / (1 + r) := by
  induction xs with
  | nil => intro t; simp [npvAux]
  | cons cf rest ih =>
    intro t
    simp only [npvAux, ih (t + 1)]
    rw [pow_succ, add_div]
    congr 1
    rw [div_div]

/-- Closed form of the discounted value of `n` constant cashflows `c` at
periods `1..n`: the annuity factor. -/
theorem npvAux_replicate (r c : ℚ) (hr : r ≠ 0) (h1r : (1 : ℚ) + r ≠ 0) :
    ∀ n : ℕ, npvAux r 1 (List.replicate n c) =
      c * ((1 + r) ^ n - 1) / (r * (1 + r) ^ n) := by
  intro n
  induction n with
  | zero => simp [npvAux]
  | succ n ih =>
    have hp : (1 + r) ^ n ≠ 0 := pow_ne_zero _ h1r
    rw [List.replicate_succ]
    simp only [npvAux, npvAux_succ r _ 1, ih]
    field_simp
    ring

/-- The NPV of the zero-fee annuity flows at the contractual rate is exactly
zero: the first Newton iterate already meets the tolerance. -/
theorem npv_annuity_flows_eq_zero (pv r : ℚ) (n : ℕ) (hr : r ≠ 0)
    (h1r : (1 : ℚ) + r ≠ 0) (hpow : (1 + r) ^ n - 1 ≠ 0) :
    npv r (mkFlows pv ⟨0, 0, 0⟩ (pv * ((r * (1 + r) ^ n) / ((1 + r) ^ n - 1))) n) = 0 := by
  have hp : (1 + r) ^ n ≠ 0 := pow_ne_zero _ h1r
  simp only [mkFlows, npv, npvAux, add_zero]
  rw [npvAux_replicate r _ hr h1r n]
  field_simp
  ring

/-! ## C5: CET round-trip at zero fees -/

/-- C5.  For every principal `pv > 0`, monthly rate `0 < r < 1` and term
`n ≥ 1`, running `cet_from_flows` with zero fees on the cash-flow series
implied by `pmt_price` recovers the monthly rate exactly (hence within 1e-6)
and the annual rate `(1+r)^12 - 1`: the NPV at the Newton starting guess is
already zero, so the solver returns the guess unchanged. -/
theorem cet_from_flows_zero_fees_roundtrip (pv r : ℚ) (n : ℕ)
    (hpv : 0 < pv) (hr0 : 0 < r) (hr1 : r < 1) (hn : 1 ≤ n) :
    cet_from_flows pv r n ⟨0, 0, 0⟩ = some (r, (1 + r) ^ 12 - 1) := by
  have hrne : r ≠ 0 := ne_of_gt hr0
  have h1r : (1 : ℚ) + r ≠ 0 := by linarith
  have hne : n ≠ 0 := by omega
  have hgt : (1 : ℚ) < (1 + r) ^ n := by
    calc (1 : ℚ) < 1 + r := by linarith
    _ ≤ (1 + r) ^ n := le_self_pow (by linarith) hne
  have hpow : (1 + r) ^ n - 1 ≠ 0 := sub_ne_zero.mpr (ne_of_gt hgt)
  have hpmt : pmt_price r n pv =
      some (pv * ((r * (1 + r) ^ n) / ((1 + r) ^ n - 1))) := by
    simp [pmt_price, hne, hrne]
  have hzero := npv_annuity_flows_eq_zero pv r n hrne h1r hpow
  have hNewton : newtonSteps
      (mkFlows pv ⟨0, 0, 0⟩ (pv * ((r * (1 + r) ^ n) / ((1 + r) ^ n - 1))) n)
      100 r = some r := by
    rw [newtonSteps]
    norm_num [hzero, irrTol]
  have hirr : irr_newton_bisection
      (mkFlows pv ⟨0, 0, 0⟩ (pv * ((r * (1 + r) ^ n) / ((1 + r) ^ n - 1))) n)
      r = r := by
    unfold irr_newton_bisection
    rw [hNewton]
  simp [cet_from_flows, hpmt, hirr]

/-- Witness for C5 at `pv = 1000`, `r = 1/50`, `n = 12`. -/
theorem cet_from_flows_zero_fees_roundtrip_witness :
    cet_from_flows 1000 (1/50) 12 ⟨0, 0, 0⟩ =
      some (1/50, (1 + 1/50) ^ 12 - 1) :=
  cet_from_flows_zero_fees_roundtrip 1000 (1/50) 12 (by norm_num) (by norm_num)
    (by norm_num) (by norm_num)

/-! ## C7: concrete PMT and amortization schedule -/

/-- C7.  For `principal = 10000`, `rate_monthly = 0.02 = 1/50`, `n = 12`:
`pmt_price` equals the closed-form annuity value `10000·0.02·1.02^12/(1.02^12−1)`
to within 1e-6 (in exact rational arithmetic the difference is 0); the twelve
`amortizacao` components of `amortization_schedule` sum to 10000 within ±0.01
(the rounded components sum to 10000.01); and the final row's `saldo_fim` is 0
within ±0.01 (it is exactly 0). -/
theorem pmt_price_and_amortization_concrete :
    pmt_price (1/50) 12 10000 ≠ none ∧
    |(pmt_price (1/50) 12 10000).getD 0 -
      10000 * (1/50 * (1 + 1/50) ^ 12) / ((1 + 1/50) ^ 12 - 1)| < 1/1000000 ∧
    amortization_schedule 10000 (1/50) 12 ≠ none ∧
    |(((amortization_schedule 10000 (1/50) 12).getD []).map
        ScheduleRow.amortizacao).sum - 10000| ≤ 1/100 ∧
    |(((amortization_schedule 10000 (1/50) 12).getD []).getLastD
        ⟨0, 0, 0, 0, 0, 0⟩).saldo_fim - 0| ≤ 1/100 := by
  have hpmt : pmt_price (1/50) 12 10000 =
      some ((61925868875124283120200 : ℚ)/65488719375621415601) := by
    norm_num [pmt_price]
  have t12 : scheduleRows (1/50) ((61925868875124283120200 : ℚ)/65488719375621415601)
      1 12 ((60711636152082630510000 : ℚ)/65488719375621415601) =
      [⟨12, 18541/20, 927/50, 18541/20, 4728/5, 0⟩] := by
    rw [scheduleRows_step _ _ _ _ _ (by norm_num)]
    norm_num [scheduleRows_zero, round2, pythonRound, Int.fract, round_eq, max_def]
  have t11 : scheduleRows (1/50) ((61925868875124283120200 : ℚ)/65488719375621415601)
      2 11 ((1190424238276130010000 : ℚ)/648403162134865501) =
      [⟨11, 183593/100, 918/25, 22722/25, 4728/5, 18541/20⟩,
       ⟨12, 18541/20, 927/50, 18541/20, 4728/5, 0⟩] := by
    rw [scheduleRows_step _ _ _ _ _ (by norm_num)]
    norm_num [t12, round2, pythonRound, Int.fract, round_eq, max_def]
  have t10 : scheduleRows (1/50) ((61925868875124283120200 : ℚ)/65488719375621415601)
      3 10 ((23341651730904510000 : ℚ)/8559498023215451) =
      [⟨10, 272699/100, 2727/50, 44553/50, 4728/5, 183593/100⟩,
       ⟨11, 183593/100, 918/25, 22722/25, 4728/5, 18541/20⟩,
       ⟨12, 18541/20, 927/50, 18541/20, 4728/5, 0⟩] := by
    rw [scheduleRows_step _ _ _ _ _ (by norm_num)]
    norm_num [t11, round2, pythonRound, Int.fract, round_eq, max_def]
  have t9 : scheduleRows (1/50) ((61925868875124283120200 : ℚ)/65488719375621415601)
      4 9 ((457679445704010000 : ℚ)/127112950820401) =
      [⟨9, 360057/100, 7201/100, 43679/50, 4728/5, 272699/100⟩,
       ⟨10, 272699/100, 2727/50, 44553/50, 4728/5, 183593/100⟩,
       ⟨11, 183593/100, 918/25, 22722/25, 4728/5, 18541/20⟩,
       ⟨12, 18541/20, 927/50, 18541/20, 4728/5, 0⟩] := by
    rw [scheduleRows_step _ _ _ _ _ (by norm_num)]
    norm_num [t10, round2, pythonRound, Int.fract, round_eq, max_def]
  have t8 : scheduleRows (1/50) ((61925868875124283120200 : ℚ)/65488719375621415601)
      5 8 ((291885075471839156010000 : ℚ)/65488719375621415601) =
      [⟨8, 445703/100, 4457/50, 42823/50, 4728/5, 360057/100⟩,
       ⟨9, 360057/100, 7201/100, 43679/50, 4728/5, 272699/100⟩,
       ⟨10, 272699/100, 2727/50, 44553/50, 4728/5, 183593/100⟩,
       ⟨11, 183593/100, 918/25, 22722/25, 4728/5, 18541/20⟩,
       ⟨12, 18541/20, 927/50, 18541/20, 4728/5, 0⟩] := by
    rw [scheduleRows_step _ _ _ _ _ (by norm_num)]
    norm_num [t9, round2, pythonRound, Int.fract, round_eq, max_def]
  have t7 : scheduleRows (1/50) ((61925868875124283120200 : ℚ)/65488719375621415601)
      6 7 ((175962878010000 : ℚ)/33221287801) =
      [⟨7, 529669/100, 10593/100, 41983/50, 4728/5, 445703/100⟩,
       ⟨8, 445703/100, 4457/50, 42823/50, 4728/5, 360057/100⟩,
       ⟨9, 360057/100, 7201/100, 43679/50, 4728/5, 272699/100⟩,
       ⟨10, 272699/100, 2727/50, 44553/50, 4728/5, 183593/100⟩,
       ⟨11, 183593/100, 918/25, 22722/25, 4728/5, 18541/20⟩,
       ⟨12, 18541/20, 927/50, 18541/20, 4728/5, 0⟩] := by
    rw [scheduleRows_step _ _ _ _ _ (by norm_num)]
    norm_num [t8, round2, pythonRound, Int.fract, round_eq, max_def]
  have t6 : scheduleRows (1/50) ((61925868875124283120200 : ℚ)/65488719375621415601)
      7 6 ((400783670318714156010000 : ℚ)/65488719375621415601) =
      [⟨6, 611989/100, 612/5, 4116/5, 4728/5, 529669/100⟩,
       ⟨7, 529669/100, 10593/100, 41983/50, 4728/5, 445703/100⟩,
       ⟨8, 445703/100, 4457/50, 42823/50, 4728/5, 360057/100⟩,
       ⟨9, 360057/100, 7201/100, 43679/50, 4728/5, 272699/100⟩,
       ⟨10, 272699/100, 2727/50, 44553/50, 4728/5, 183593/100⟩,
       ⟨11, 183593/100, 918/25, 22722/25, 4728/5, 18541/20⟩,
       ⟨12, 18541/20, 927/50, 18541/20, 4728/5, 0⟩] := by
    rw [scheduleRows_step _ _ _ _ _ (by norm_num)]
    norm_num [t7, round2, pythonRound, Int.fract, round_eq, max_def]
  have t5 : scheduleRows (1/50) ((61925868875124283120200 : ℚ)/65488719375621415601)
      8 5 ((880504508204010000 : ℚ)/127112950820401) =
      [⟨5, 138539/20, 6927/50, 40353/50, 4728/5, 611989/100⟩,
       ⟨6, 611989/100, 612/5, 4116/5, 4728/5, 529669/100⟩,
       ⟨7, 529669/100, 10593/100, 41983/50, 4728/5, 445703/100⟩,
       ⟨8, 445703/100, 4457/50, 42823/50, 4728/5, 360057/100⟩,
       ⟨9, 360057/100, 7201/100, 43679/50, 4728/5, 272699/100⟩,
       ⟨10, 272699/100, 2727/50, 44553/50, 4728/5, 183593/100⟩,
       ⟨11, 183593/100, 918/25, 22722/25, 4728/5, 18541/20⟩,
       ⟨12, 18541/20, 927/50, 18541/20, 4728/5, 0⟩] := by
    rw [scheduleRows_step _ _ _ _ _ (by norm_num)]
    norm_num [t6, round2, pythonRound, Int.fract, round_eq, max_def]
  have t4 : scheduleRows (1/50) ((61925868875124283120200 : ℚ)/65488719375621415601)
      9 4 ((66063730232154510000 : ℚ)/8559498023215451) =
      [⟨4, 385909/50, 3859/25, 79123/100, 4728/5, 138539/20⟩,
       ⟨5, 138539/20, 6927/50, 40353/50, 4728/5, 611989/100⟩,
       ⟨6, 611989/100, 612/5, 4116/5, 4728/5, 529669/100⟩,
       ⟨7, 529669/100, 10593/100, 41983/50, 4728/5, 445703/100⟩,
       ⟨8, 445703/100, 4457/50, 42823/50, 4728/5, 360057/100⟩,
       ⟨9, 360057/100, 7201/100, 43679/50, 4728/5, 272699/100⟩,
       ⟨10, 272699/100, 2727/50, 44553/50, 4728/5, 183593/100⟩,
       ⟨11, 183593/100, 918/25, 22722/25, 4728/5, 18541/20⟩,
       ⟨12, 18541/20, 927/50, 18541/20, 4728/5, 0⟩] := by
    rw [scheduleRows_step _ _ _ _ _ (by norm_num)]
    norm_num [t5, round2, pythonRound, Int.fract, round_eq, max_def]
  have t3 : scheduleRows (1/50) ((61925868875124283120200 : ℚ)/65488719375621415601)
      10 3 ((5507469121348655010000 : ℚ)/648403162134865501) =
      [⟨3, 84939/10, 4247/25, 19393/25, 4728/5, 385909/50⟩,
       ⟨4, 385909/50, 3859/25, 79123/100, 4728/5, 138539/20⟩,
       ⟨5, 138539/20, 6927/50, 40353/50, 4728/5, 611989/100⟩,
       ⟨6, 611989/100, 612/5, 4116/5, 4728/5, 529669/100⟩,
       ⟨7, 529669/100, 10593/100, 41983/50, 4728/5, 445703/100⟩,
       ⟨8, 445703/100, 4457/50, 42823/50, 4728/5, 360057/100⟩,
       ⟨9, 360057/100, 7201/100, 43679/50, 4728/5, 272699/100⟩,
       ⟨10, 272699/100, 2727/50, 44553/50, 4728/5, 183593/100⟩,
       ⟨11, 183593/100, 918/25, 22722/25, 4728/5, 18541/20⟩,
       ⟨12, 18541/20, 927/50, 18541/20, 4728/5, 0⟩] := by
    rw [scheduleRows_step _ _ _ _ _ (by norm_num)]
    norm_num [t4, round2, pythonRound, Int.fract, round_eq, max_def]
  have t2 : scheduleRows (1/50) ((61925868875124283120200 : ℚ)/65488719375621415601)
      11 2 ((606059068756214156010000 : ℚ)/65488719375621415601) =
      [⟨2, 46272/5, 18509/100, 76051/100, 4728/5, 84939/10⟩,
       ⟨3, 84939/10, 4247/25, 19393/25, 4728/5, 385909/50⟩,
       ⟨4, 385909/50, 3859/25, 79123/100, 4728/5, 138539/20⟩,
       ⟨5, 138539/20, 6927/50, 40353/50, 4728/5, 611989/100⟩,
       ⟨6, 611989/100, 612/5, 4116/5, 4728/5, 529669/100⟩,
       ⟨7, 529669/100, 10593/100, 41983/50, 4728/5, 445703/100⟩,
       ⟨8, 445703/100, 4457/50, 42823/50, 4728/5, 360057/100⟩,
       ⟨9, 360057/100, 7201/100, 43679/50, 4728/5, 272699/100⟩,
       ⟨10, 272699/100, 2727/50, 44553/50, 4728/5, 183593/100⟩,
       ⟨11, 183593/100, 918/25, 22722/25, 4728/5, 18541/20⟩,
       ⟨12, 18541/20, 927/50, 18541/20, 4728/5, 0⟩] := by
    rw [scheduleRows_step _ _ _ _ _ (by norm_num)]
    norm_num [t3, round2, pythonRound, Int.fract, round_eq, max_def]
  have t1 : scheduleRows (1/50) ((61925868875124283120200 : ℚ)/65488719375621415601)
      12 1 10000 =
      [⟨1, 10000, 200, 3728/5, 4728/5, 46272/5⟩,
       ⟨2, 46272/5, 18509/100, 76051/100, 4728/5, 84939/10⟩,
       ⟨3, 84939/10, 4247/25, 19393/25, 4728/5, 385909/50⟩,
       ⟨4, 385909/50, 3859/25, 79123/100, 4728/5, 138539/20⟩,
       ⟨5, 138539/20, 6927/50, 40353/50, 4728/5, 611989/100⟩,
       ⟨6, 611989/100, 612/5, 4116/5, 4728/5, 529669/100⟩,
       ⟨7, 529669/100, 10593/100, 41983/50, 4728/5, 445703/100⟩,
       ⟨8, 445703/100, 4457/50, 42823/50, 4728/5, 360057/100⟩,
       ⟨9, 360057/100, 7201/100, 43679/50, 4728/5, 272699/100⟩,
       ⟨10, 272699/100, 2727/50, 44553/50, 4728/5, 183593/100⟩,
       ⟨11, 183593/100, 918/25, 22722/25, 4728/5, 18541/20⟩,
       ⟨12, 18541/20, 927/50, 18541/20, 4728/5, 0⟩] := by
    rw [scheduleRows_step _ _ _ _ _ (by norm_num)]
    norm_num [t2, round2, pythonRound, Int.fract, round_eq, max_def]
  have hrows : amortization_schedule 10000 (1/50) 12 =
      some [⟨1, 10000, 200, 3728/5, 4728/5, 46272/5⟩,
       ⟨2, 46272/5, 18509/100, 76051/100, 4728/5, 84939/10⟩,
       ⟨3, 84939/10, 4247/25, 19393/25, 4728/5, 385909/50⟩,
       ⟨4, 385909/50, 3859/25, 79123/100, 4728/5, 138539/20⟩,
       ⟨5, 138539/20, 6927/50, 40353/50, 4728/5, 611989/100⟩,
       ⟨6, 611989/100, 612/5, 4116/5, 4728/5, 529669/100⟩,
       ⟨7, 529669/100, 10593/100, 41983/50, 4728/5, 445703/100⟩,
       ⟨8, 445703/100, 4457/50, 42823/50, 4728/5, 360057/100⟩,
       ⟨9, 360057/100, 7201/100, 43679/50, 4728/5, 272699/100⟩,
       ⟨10, 272699/100, 2727/50, 44553/50, 4728/5, 183593/100⟩,
       ⟨11, 183593/100, 918/25, 22722/25, 4728/5, 18541/20⟩,
       ⟨12, 18541/20, 927/50, 18541/20, 4728/5, 0⟩] := by
    simp only [amortization_schedule, hpmt, Option.map_some', t1]
  refine ⟨?_, ?_, ?_, ?_, ?_⟩
  · rw [hpmt]
    exact Option.some_ne_none _
  · rw [hpmt]
    rw [Option.getD_some]
    norm_num
  · rw [hrows]
    exact Option.some_ne_none _
  · rw [hrows]
    rw [Option.getD_some]
    norm_num [abs_le]
  · rw [hrows]
    rw [Option.getD_some]
    norm_num [List.getLastD]

/-! ## C1: behaviour when the IRR solver fails to bracket a root -/

/-- C1 (amended).  When, during CET computation, Newton-Raphson fails and the
bisection fallback fails to bracket a root even after expanding the bracket,
`irr_newton_bisection` returns the initial guess (the contractual monthly
rate); the response therefore reports a *numeric* installment, `cet_monthly`
(= the rounded guess) and `cet_yearly`, and *no* diagnostic field is attached
(`fees_error` only arises from a raised exception, e.g. a non-positive term).
The request is not aborted. -/
theorem cet_bracket_failure_reports_guess (rate amount : ℚ) (n : ℕ) (fees : Fees)
    (pmt : ℚ) (hp : pmt_price rate n amount = some pmt)
    (hN : newtonSteps (mkFlows amount fees pmt n) 100 rate = none)
    (hB : bracketFailsAfterExpansion (mkFlows amount fees pmt n)) :
    scoreViewCet rate amount n fees =
      ⟨some (round2 pmt), some (round6 rate), some (round6 ((1 + rate) ^ 12 - 1)),
       false⟩ := by
  obtain ⟨hB1, hB2⟩ := hB
  have hirr : irr_newton_bisection (mkFlows amount fees pmt n) rate = rate := by
    unfold irr_newton_bisection
    rw [hN]
    simp only [hB1, hB2, if_true]
  have hc : cet_from_flows amount rate n fees = some (rate, (1 + rate) ^ 12 - 1) := by
    simp only [cet_from_flows, hp, Option.map_some', hirr]
  simp only [scoreViewCet, hp, hc]

/-- Counterexample to C1 as stated: for `amount = 100`, `rate = 1/50`,
`term = 1` and a (negative) monthly fee of −204, the flows are `[100, 102]`;
Newton leaves the bracket at the first iterate and the NPV is positive at both
ends of both brackets, so the solver fails to bracket a root even after
expansion — yet the response carries *numeric* `installment`, `cet_monthly`
and `cet_yearly` values (derived from the returned guess) and no diagnostic
`fees_error` field, contradicting the claimed null CET plus diagnostic. -/
theorem cet_bracket_failure_counterexample :
    bracketFailsAfterExpansion [100, 102] ∧
    newtonSteps [100, 102] 100 (1/50) = none ∧
    mkFlows 100 ⟨0, -204, 0⟩ 102 1 = [100, 102] ∧
    scoreViewCet (1/50) 100 1 ⟨0, -204, 0⟩ =
      ⟨some 102, some (1/50), some (round6 ((1 + 1/50) ^ 12 - 1)), false⟩ := by
  have hB1 : npv irrBracket.1 [100, 102] * npv irrBracket.2 [100, 102] > 0 := by
    norm_num [npv, npvAux, irrBracket]
  have hB2 : npv (-(9999/10000)) [100, 102] * npv 3 [100, 102] > 0 := by
    norm_num [npv, npvAux]
  have hN : newtonSteps [100, 102] 100 (1/50) = none := by
    rw [newtonSteps]
    norm_num [npv, npvAux, dnpv, dnpvAux, irrTol, irrBracket]
  have hpmt : pmt_price (1/50) 1 100 = some 102 := by norm_num [pmt_price]
  have hflows : mkFlows 100 ⟨0, -204, 0⟩ 102 1 = [100, 102] := by
    norm_num [mkFlows, List.replicate]
  have hirr : irr_newton_bisection [100, 102] (1/50) = 1/50 := by
    unfold irr_newton_bisection
    rw [hN]
    simp only [hB1, hB2, if_true]
  have hc : cet_from_flows 100 (1/50) 1 ⟨0, -204, 0⟩ =
      some (1/50, (1 + 1/50) ^ 12 - 1) := by
    simp only [cet_from_flows, hpmt, Option.map_some', hflows, hirr]
  have h2 : round2 (102 : ℚ) = 102 := by
    norm_num [round2, pythonRound, Int.fract, round_eq]
  have h6 : round6 (1/50 : ℚ) = 1/50 := by
    norm_num [round6, pythonRound, Int.fract, round_eq]
  refine ⟨⟨hB1, hB2⟩, hN, hflows, ?_⟩
  simp only [scoreViewCet, hpmt, hc, h2, h6]

/-- Witness for the amended C1 at the concrete bracket-failure input. -/
theorem cet_bracket_failure_reports_guess_witness :
    scoreViewCet (1/50) 100 1 ⟨0, -204, 0⟩ =
      ⟨some (round2 102), some (round6 (1/50)),
       some (round6 ((1 + 1/50) ^ 12 - 1)), false⟩ := by
  have hflows : mkFlows 100 ⟨0, -204, 0⟩ 102 1 = [100, 102] := by
    norm_num [mkFlows, List.replicate]
  apply cet_bracket_failure_reports_guess
  · norm_num [pmt_price]
  · rw [hflows, newtonSteps]
    norm_num [npv, npvAux, dnpv, dnpvAux, irrTol, irrBracket]
  · rw [hflows]
    constructor
    · norm_num [npv, npvAux, irrBracket]
    · norm_num [npv, npvAux]

/-! ## C2: requests with missing feature keys -/

/-- C2 (amended).  A scoring request without a `features` object is rejected
at parse time (`from_json` fails), but a request merely missing some of the
15 required feature keys is NOT rejected: `score_view` never calls
`to_feature_vector`; it fills every absent key with 0.0 and proceeds to build
the 16-column classifier row.  The all-15-keys invariant lives only in the
serializer's `to_feature_vector`, which would fail — but is not invoked by
the scoring view. -/
theorem missing_features_not_rejected (f : FMap) (a : Option ℚ) (t : Option ℤ)
    (fe : Option Fees) (key : String) (hk : key ∈ FEATURE_ORDER)
    (hmiss : f.lookup key = none) :
    from_json ⟨some f, a, t, fe⟩ = some (f, a, t, fe) ∧
    from_json ⟨none, a, t, fe⟩ = none ∧
    (scoreViewRow f).length = 16 ∧
    to_feature_vector f = none := by
  refine ⟨rfl, rfl, ?_, ?_⟩
  · simp [scoreViewRow, expected_cols]
  · have hall : ¬(FEATURE_ORDER.all (fun k => (f.lookup k).isSome) = true) := by
      intro hall
      have h2 := List.all_eq_true.mp hall key hk
      rw [hmiss] at h2
      simp at h2
    simp [to_feature_vector, hall]

/-- Counterexample to C2 as stated: a request whose `features` object is
empty (all 15 required keys missing) is not rejected — `from_json` succeeds
and the classifier input row is built as 16 zeros. -/
theorem missing_features_not_rejected_counterexample :
    from_json ⟨some [], none, none, none⟩ = some ([], none, none, none) ∧
    scoreViewRow [] = List.replicate 16 0 :=
  ⟨rfl, by simp [scoreViewRow, expected_cols, List.lookup, List.replicate]⟩

/-- Witness for the amended C2 at the empty features object and key
`"idade"`. -/
theorem missing_features_not_rejected_witness :
    from_json ⟨some [], none, none, none⟩ = some ([], none, none, none) ∧
    from_json ⟨none, none, none, none⟩ = none ∧
    (scoreViewRow []).length = 16 ∧
    to_feature_vector [] = none :=
  missing_features_not_rejected [] none none none "idade"
    (by simp [FEATURE_ORDER]) (by simp)

/-! ## C10: the 16-column classifier row -/

/-- C10.  Before invoking the classifier, `score_view` builds a 16-column
row, not 15: the derived `"ambos"` column is appended last and equals 1
exactly when both `beneficio_ativo` and `emprego_ativo` are truthy (nonzero)
in the supplied features, and every one of the 15 named keys that is absent
from the request is filled with 0.0 instead of causing a failure. -/
theorem scoreViewRow_structure (f : FMap) (key : String)
    (hk : key ∈ FEATURE_ORDER) (hmiss : f.lookup key = none) :
    (scoreViewRow f).length = 16 ∧
    (scoreViewRow f).getLast? =
      some (if (f.lookup "beneficio_ativo").getD 0 ≠ 0 ∧
               (f.lookup "emprego_ativo").getD 0 ≠ 0 then 1 else 0) ∧
    (scoreViewRow f)[expected_cols.indexOf key]? = some 0 := by
  refine ⟨?_, ?_, ?_⟩
  · simp [scoreViewRow, expected_cols]
  · simp [scoreViewRow, expected_cols, List.getLast?, List.lookup]
  · fin_cases hk <;>
      simp [scoreViewRow, expected_cols, FEATURE_ORDER, List.lookup, hmiss]

/-- Witness for C10 with both flags truthy and `"idade"` missing. -/
theorem scoreViewRow_structure_witness :
    (scoreViewRow [("beneficio_ativo", 1), ("emprego_ativo", 3)]).length = 16 ∧
    (scoreViewRow [("beneficio_ativo", 1), ("emprego_ativo", 3)]).getLast? =
      some (if (([("beneficio_ativo", 1), ("emprego_ativo", 3)] : FMap).lookup
                 "beneficio_ativo").getD 0 ≠ 0 ∧
               (([("beneficio_ativo", 1), ("emprego_ativo", 3)] : FMap).lookup
                 "emprego_ativo").getD 0 ≠ 0 then 1 else 0) ∧
    (scoreViewRow [("beneficio_ativo", 1), ("emprego_ativo", 3)])[
      expected_cols.indexOf "idade"]? = some 0 :=
  scoreViewRow_structure [("beneficio_ativo", 1), ("emprego_ativo", 3)] "idade"
    (by simp [FEATURE_ORDER]) (by simp [List.lookup])

/-! ## C3: unit_economics is absent from the scoring response -/

/-- C3 (amended).  The scoring response never contains a `unit_economics`
object — whether or not `term_months` (and `amount`) are supplied, and
whether or not the CET block succeeds.  The pricing wrapper does expose a
`components` computation whose `i_min` is `funding + opex + risk + margin`
with `risk = (pd·lgd·0.5)/(max(n,1)/12)`, but no view attaches it to the
response and no `ok_to_lend` flag is computed anywhere. -/
theorem scoreView_no_unit_economics (a : Option ℚ) (t : Option ℤ) (cetOk : Bool) :
    (scoreViewKeys a t cetOk).contains "unit_economics" = false ∧
    ∀ pd n lgd funding opex margin,
      (components pd n lgd funding opex margin).i_min =
        funding + opex + (pd * lgd * (1/2)) / (((max n 1 : ℤ) : ℚ) / 12) + margin := by
  constructor
  · cases a <;> cases t <;> cases cetOk <;> simp [scoreViewKeys]
  · intro pd n lgd funding opex margin
    simp [components]

/-- Counterexample to C3 as stated: even for a request that supplies both
`amount` and `term_months`, neither the success- nor the failure-branch
response contains a `unit_economics` key. -/
theorem scoreView_no_unit_economics_counterexample :
    (scoreViewKeys (some 10000) (some 12) true).contains "unit_economics" = false ∧
    (scoreViewKeys (some 10000) (some 12) false).contains "unit_economics" = false := by
  constructor <;> simp [scoreViewKeys]

/-! ## C9: eligibility evaluation (spec-modelled) -/

/-- C9.  `evaluate` returns `eligible = true` exactly when its reasons list
is empty; it accumulates one reason per failing rule independently; and at
the boundary: band D, installment 350 on income 1000 with `min_band = "D"`
and `max_income_ratio = 0.35` is eligible (ratio exactly at the threshold);
band E instead is ineligible with reason `score_insuficiente(<D)`;
installment 351 instead is ineligible with reason
`parcela_acima_35pct_renda`. -/
theorem evaluate_eligibility_rules :
    (∀ band inst inc mb mr,
      ((evaluate band inst inc mb mr).eligible = true ↔
        (evaluate band inst inc mb mr).reasons = [])) ∧
    (∀ band inst inc mb mr, bandRank band < bandRank mb → inst / inc > mr →
      (evaluate band inst inc mb mr).reasons =
        ["score_insuficiente(<" ++ mb ++ ")",
         "parcela_acima_" ++ toString (⌊mr * 100⌋.toNat) ++ "pct_renda"]) ∧
    ((evaluate "D" 350 1000 "D" (35/100)).eligible = true) ∧
    ((evaluate "E" 350 1000 "D" (35/100)).eligible = false ∧
      "score_insuficiente(<D)" ∈ (evaluate "E" 350 1000 "D" (35/100)).reasons) ∧
    ((evaluate "D" 351 1000 "D" (35/100)).eligible = false ∧
      "parcela_acima_35pct_renda" ∈ (evaluate "D" 351 1000 "D" (35/100)).reasons) := by
  refine ⟨?_, ?_, ?_, ?_, ?_⟩
  · intro band inst inc mb mr
    simp [evaluate, List.isEmpty_iff]
  · intro band inst inc mb mr h1 h2
    simp [evaluate, h1, h2]
  · norm_num [evaluate, bandRank]
  · constructor <;>
      norm_num [evaluate, bandRank,
        show ("score_insuficiente(<" ++ "D" ++ ")" : String) =
          "score_insuficiente(<D)" from rfl]
  · constructor <;>
      norm_num [evaluate, bandRank,
        show ("parcela_acima_" ++ toString (Int.toNat 35) ++ "pct_renda" : String) =
          "parcela_acima_35pct_renda" from rfl]

/-- Witness for C9: with band E and installment 351 both rules fail and both
reasons accumulate, in order. -/
theorem evaluate_eligibility_rules_witness :
    (evaluate "E" 351 1000 "D" (35/100)).reasons =
      ["score_insuficiente(<" ++ "D" ++ ")",
       "parcela_acima_" ++ toString (⌊(35/100 : ℚ) * 100⌋.toNat) ++ "pct_renda"] :=
  evaluate_eligibility_rules.2.1 "E" 351 1000 "D" (35/100)
    (by norm_num [bandRank]) (by norm_num)

/-! ## C8: 6-month income statistics -/

/-- C8.  The 6-month income statistics run over all six calendar-month
buckets with zero-activity months counted as zero: with credits only in two
months (1000 and 2000), `renda_media_6m = 3000/6 = 500` and no month has a
negative net; adding a 300 debit in an otherwise inactive month makes exactly
one of six months negative (`pct = 1/6`).  The coefficient of variation is 0
whenever total income is 0, and otherwise equals the sample standard
deviation (denominator n−1 = 5) of the 6 monthly income values divided by
their mean. -/
theorem income_stats_6m :
    renda_media_6m months6Example txsTwoCredits = 500 ∧
    pct_meses_saldo_neg_6m months6Example txsTwoCredits = 0 ∧
    pct_meses_saldo_neg_6m months6Example txsWithDebit = 1/6 ∧
    (∀ months6 txs, total_income_6m months6 txs = 0 →
      coef_var_renda months6 txs = 0) ∧
    (∀ months6 txs, 0 < total_income_6m months6 txs →
      coef_var_renda months6 txs =
        sampleStdSpec6 (monthly_vals months6 txs) /
          ((total_income_6m months6 txs / 6 : ℚ) : ℝ)) := by
  refine ⟨?_, ?_, ?_, ?_, ?_⟩
  · simp [renda_media_6m, total_income_6m, monthly_vals, monthlyAccum,
      months6Example, txsTwoCredits, Function.update]
    norm_num
  · simp [pct_meses_saldo_neg_6m, monthlyAccum, months6Example, txsTwoCredits,
      Function.update, List.countP, List.countP.go,
      show decide ((1000:ℚ) < 0) = false from by norm_num,
      show decide ((2000:ℚ) < 0) = false from by norm_num]
  · simp [pct_meses_saldo_neg_6m, monthlyAccum, months6Example, txsWithDebit,
      txsTwoCredits, Function.update, List.countP, List.countP.go,
      show decide ((1000:ℚ) < 0) = false from by norm_num,
      show decide ((2000:ℚ) < 0) = false from by norm_num,
      show decide ((-300:ℚ) < 0) = true from by norm_num]
  · intro months6 txs h
    simp [coef_var_renda, h]
  · intro months6 txs h
    have hm : total_income_6m months6 txs / 6 ≠ 0 := by positivity
    have hm2 : (monthly_vals months6 txs).sum / 6 ≠ 0 := hm
    rw [coef_var_renda, if_pos h]
    simp only [sampleStdSpec6, total_income_6m]
    rw [if_pos hm2]

/-- Witness for C8's coefficient-of-variation clauses: zero on an empty
transaction list, and the std/mean form on the two-credit scenario. -/
theorem income_stats_6m_witness :
    coef_var_renda months6Example [] = 0 ∧
    coef_var_renda months6Example txsTwoCredits =
      sampleStdSpec6 (monthly_vals months6Example txsTwoCredits) /
        ((total_income_6m months6Example txsTwoCredits / 6 : ℚ) : ℝ) := by
  constructor
  · exact income_stats_6m.2.2.2.1 months6Example []
      (by simp [total_income_6m, monthly_vals, monthlyAccum, months6Example])
  · refine income_stats_6m.2.2.2.2 months6Example txsTwoCredits ?_
    simp [total_income_6m, monthly_vals, monthlyAccum, months6Example,
      txsTwoCredits, Function.update]
    norm_num

/-! ## Properties of round-half-to-even -/

section PythonRound

variable {α : Type} [LinearOrderedField α] [FloorRing α] [DecidableEq α]

theorem half_eq_floor_add_half {x : α} (h : Int.fract x = 1/2) :
    x = (⌊x⌋ : α) + 1/2 := by
  have h2 := Int.floor_add_fract x
  rw [h] at h2
  linarith

theorem round_of_fract_half {x : α} (h : Int.fract x = 1/2) :
    round x = ⌊x⌋ + 1 := by
  have hx2 : x + 1/2 = ((⌊x⌋ + 1 : ℤ) : α) := by
    have h3 := half_eq_floor_add_half h
    push_cast
    linarith
  rw [round_eq, hx2, Int.floor_intCast]

theorem pythonRound_le_round (x : α) : pythonRound x ≤ round x := by
  unfold pythonRound
  by_cases h : Int.fract x = 1/2
  · rw [if_pos h, round_of_fract_half h]
    by_cases he : Even ⌊x⌋
    · rw [if_pos he]; omega
    · rw [if_neg he]
  · rw [if_neg h]

theorem floor_le_pythonRound (x : α) : ⌊x⌋ ≤ pythonRound x := by
  unfold pythonRound
  by_cases h : Int.fract x = 1/2
  · rw [if_pos h]
    by_cases he : Even ⌊x⌋
    · rw [if_pos he]
    · rw [if_neg he]; omega
  · rw [if_neg h, round_eq]
    exact Int.floor_mono (by linarith)

theorem round_monotone {x y : α} (h : x ≤ y) : round x ≤ round y := by
  rw [round_eq, round_eq]
  exact Int.floor_mono (by linarith)

theorem pythonRound_monotone {x y : α} (hxy : x ≤ y) :
    pythonRound x ≤ pythonRound y := by
  by_cases hy : Int.fract y = 1/2
  · by_cases hye : Even ⌊y⌋
    · have hy2 : y = (⌊y⌋ : α) + 1/2 := half_eq_floor_add_half hy
      have hpry : pythonRound y = ⌊y⌋ := by
        unfold pythonRound; rw [if_pos hy, if_pos hye]
      rw [hpry]
      by_cases hx : Int.fract x = 1/2
      · by_cases hxe : Even ⌊x⌋
        · have hprx : pythonRound x = ⌊x⌋ := by
            unfold pythonRound; rw [if_pos hx, if_pos hxe]
          rw [hprx]
          exact Int.floor_mono hxy
        · have hprx : pythonRound x = ⌊x⌋ + 1 := by
            unfold pythonRound; rw [if_pos hx, if_neg hxe]
          rw [hprx]
          have hfl : ⌊x⌋ ≤ ⌊y⌋ := Int.floor_mono hxy
          rcases eq_or_lt_of_le hfl with heq | hlt
          · exact absurd (heq ▸ hye) hxe
          · omega
      · have hprx : pythonRound x = round x := by
          unfold pythonRound; rw [if_neg hx]
        rw [hprx, round_eq]
        have hxy' : x < y := lt_of_le_of_ne hxy (fun he => hx (he ▸ hy))
        have hlt : x + 1/2 < ((⌊y⌋ + 1 : ℤ) : α) := by
          push_cast
          rw [hy2] at hxy'
          linarith
        have := Int.floor_lt.mpr hlt
        omega
    · have hpry : pythonRound y = round y := by
        unfold pythonRound
        rw [if_pos hy, if_neg hye, round_of_fract_half hy]
      rw [hpry]
      exact le_trans (pythonRound_le_round x) (round_monotone hxy)
  · have hpry : pythonRound y = round y := by
      unfold pythonRound; rw [if_neg hy]
    rw [hpry]
    exact le_trans (pythonRound_le_round x) (round_monotone hxy)

theorem abs_pythonRound_sub_le (x : α) : |(pythonRound x : α) - x| ≤ 1/2 := by
  by_cases h : Int.fract x = 1/2
  · have hx2 : x = (⌊x⌋ : α) + 1/2 := half_eq_floor_add_half h
    unfold pythonRound
    rw [if_pos h]
    by_cases he : Even ⌊x⌋
    · rw [if_pos he, abs_le]
      constructor <;> linarith
    · rw [if_neg he, abs_le]
      push_cast
      constructor <;> linarith
  · unfold pythonRound
    rw [if_neg h, abs_sub_comm]
    exact abs_sub_round x

theorem pythonRound_le_of_le {x : α} {M : ℤ} (h : x ≤ (M : α)) :
    pythonRound x ≤ M := by
  calc pythonRound x ≤ round x := pythonRound_le_round x
  _ ≤ round (M : α) := round_monotone h
  _ = M := round_intCast M

theorem le_pythonRound_of_le {m : ℤ} {x : α} (h : (m : α) ≤ x) :
    m ≤ pythonRound x :=
  le_trans (Int.le_floor.mpr h) (floor_le_pythonRound x)

end PythonRound

/-! ## C4: the score is non-increasing in the default probability -/

/-- C4.  For every pair of probabilities `pd1 < pd2`, both within
`[pd_floor, pd_ceiling]` (with `0 < pd_floor` and `pd_ceiling < 1`, so the
odds and their logarithm are defined, as in any valid configuration), and a
configuration with `PDO > 0` and `O0 > 0`,
`pd_to_score pd1 ≥ pd_to_score pd2`: higher default risk gives a lower or
equal score. -/
theorem pd_to_score_antitone (c : Scorecard) (pd1 pd2 : ℝ)
    (hPDO : 0 < c.PDO) (hO0 : 0 < c.O0)
    (hfl : 0 < c.pd_floor) (hce : c.pd_ceiling < 1)
    (h1l : c.pd_floor ≤ pd1) (h1u : pd1 ≤ c.pd_ceiling)
    (h2l : c.pd_floor ≤ pd2) (h2u : pd2 ≤ c.pd_ceiling)
    (h12 : pd1 < pd2) :
    c.pd_to_score pd2 ≤ c.pd_to_score pd1 := by
  have hk : 0 < c.k := div_pos hPDO (Real.log_pos (by norm_num))
  have hclip1 : c.pd_clip pd1 = pd1 := by
    unfold Scorecard.pd_clip
    rw [min_eq_right h1u, max_eq_right h1l]
  have hclip2 : c.pd_clip pd2 = pd2 := by
    unfold Scorecard.pd_clip
    rw [min_eq_right h2u, max_eq_right h2l]
  have hp1 : 0 < pd1 := lt_of_lt_of_le hfl h1l
  have hp2 : 0 < pd2 := lt_of_lt_of_le hfl h2l
  have hq2 : pd2 < 1 := lt_of_le_of_lt h2u hce
  have hodds2 : 0 < pd_to_odds pd2 := div_pos (by linarith) hp2
  have hoddslt : pd_to_odds pd2 < pd_to_odds pd1 := by
    unfold pd_to_odds
    rw [div_lt_div_iff hp2 hp1]
    nlinarith
  have hlog : Real.log (pd_to_odds pd2 / c.O0) ≤ Real.log (pd_to_odds pd1 / c.O0) :=
    (Real.log_lt_log (div_pos hodds2 hO0)
      ((div_lt_div_right hO0).mpr hoddslt)).le
  unfold Scorecard.pd_to_score
  rw [hclip1, hclip2]
  apply pythonRound_monotone
  apply max_le_max (le_refl _)
  apply min_le_min (le_refl _)
  nlinarith

/-- Witness for C4 at a concrete configuration and `pd1 = 1/4 < pd2 = 1/2`. -/
theorem pd_to_score_antitone_witness :
    Scorecard.pd_to_score ⟨600, 1, 50, 1/4, 3/4, 0, 1000⟩ (1/2) ≤
      Scorecard.pd_to_score ⟨600, 1, 50, 1/4, 3/4, 0, 1000⟩ (1/4) :=
  pd_to_score_antitone ⟨600, 1, 50, 1/4, 3/4, 0, 1000⟩ (1/4) (1/2)
    (by norm_num) (by norm_num) (by norm_num) (by norm_num) (by norm_num)
    (by norm_num) (by norm_num) (by norm_num) (by norm_num)

/-! ## C6: score round-trip moves the odds by less than one score point -/

/-- Log-odds is antitone on (0,1). -/
theorem logOdds_le_logOdds {p r : ℝ} (hp : 0 < p) (hpr : p ≤ r) (hr : r < 1) :
    logOdds r ≤ logOdds p := by
  unfold logOdds pd_to_odds
  apply Real.log_le_log (div_pos (by linarith) (by linarith))
  rw [div_le_div_iff (by linarith) hp]
  nlinarith

/-- `pd_to_odds` inverts `odds_to_pd` on positive odds. -/
theorem pd_to_odds_odds_to_pd {o : ℝ} (ho : 0 < o) :
    pd_to_odds (odds_to_pd o) = o := by
  unfold pd_to_odds odds_to_pd
  have h1 : (0:ℝ) < 1 + o := by linarith
  field_simp

/-- C6.  For every `pd ∈ [0,1]` (clipping handles the rest), provided the
configuration is valid (`PDO > 0`, `O0 > 0`, `0 < pd_floor ≤ pd_ceiling < 1`)
and the exact (unrounded, unclamped) score lies within
`[score_min, score_max]` — i.e. up to floor/ceiling clamping and integer
rounding — `score_to_pd (pd_to_score pd)` differs from the clipped `pd` by
less than one score point's worth of odds movement: the log-odds move by at
most `(1/2)·ln2/PDO`, strictly less than the `ln2/PDO` shift of one score
point (`PDO` points double the odds). -/
theorem score_roundtrip_within_one_point (c : Scorecard) (pd : ℝ)
    (hPDO : 0 < c.PDO) (hO0 : 0 < c.O0)
    (hfl : 0 < c.pd_floor) (hce : c.pd_ceiling < 1)
    (hfc : c.pd_floor ≤ c.pd_ceiling)
    (hpd0 : 0 ≤ pd) (hpd1 : pd ≤ 1)
    (hs_lo : (c.score_min : ℝ) ≤
      c.S0 + c.k * Real.log (pd_to_odds (c.pd_clip pd) / c.O0))
    (hs_hi : c.S0 + c.k * Real.log (pd_to_odds (c.pd_clip pd) / c.O0) ≤
      (c.score_max : ℝ)) :
    |logOdds (c.score_to_pd (c.pd_to_score pd)) - logOdds (c.pd_clip pd)| <
      Real.log 2 / c.PDO := by
  have hk : 0 < c.k := div_pos hPDO (Real.log_pos (by norm_num))
  have hlog2 : 0 < Real.log 2 := Real.log_pos (by norm_num)
  have hpdcl : c.pd_floor ≤ c.pd_clip pd := le_max_left _ _
  have hpdcu : c.pd_clip pd ≤ c.pd_ceiling := by
    unfold Scorecard.pd_clip
    exact max_le hfc (min_le_left _ _)
  have hpdc0 : 0 < c.pd_clip pd := lt_of_lt_of_le hfl hpdcl
  have hpdc1 : c.pd_clip pd < 1 := lt_of_le_of_lt hpdcu hce
  have hodds_pos : 0 < pd_to_odds (c.pd_clip pd) := div_pos (by linarith) hpdc0
  have hscore : c.pd_to_score pd =
      pythonRound (c.S0 + c.k * Real.log (pd_to_odds (c.pd_clip pd) / c.O0)) := by
    unfold Scorecard.pd_to_score
    rw [min_eq_right hs_hi, max_eq_right hs_lo]
  set sEx : ℝ := c.S0 + c.k * Real.log (pd_to_odds (c.pd_clip pd) / c.O0)
    with hsExDef
  set s : ℤ := pythonRound sEx with hsDef
  have hslo : c.score_min ≤ s := le_pythonRound_of_le hs_lo
  have hshi : s ≤ c.score_max := pythonRound_le_of_le hs_hi
  have hsdist : |(s : ℝ) - sEx| ≤ 1/2 := abs_pythonRound_sub_le sEx
  have hclampS : max c.score_min (min c.score_max s) = s := by omega
  have hfinal : c.score_to_pd (c.pd_to_score pd) =
      c.pd_clip (odds_to_pd (c.O0 * Real.exp (((s : ℝ) - c.S0) / c.k))) := by
    unfold Scorecard.score_to_pd
    rw [hscore, hclampS]
  set oddsSnap : ℝ := c.O0 * Real.exp (((s : ℝ) - c.S0) / c.k) with hoddsDef
  have hoddsSnap_pos : 0 < oddsSnap := mul_pos hO0 (Real.exp_pos _)
  have hq0 : 0 < odds_to_pd oddsSnap := by
    unfold odds_to_pd
    positivity
  have hq1 : odds_to_pd oddsSnap < 1 := by
    unfold odds_to_pd
    rw [div_lt_one (by linarith)]
    linarith
  have hlogq : logOdds (odds_to_pd oddsSnap) =
      Real.log c.O0 + ((s : ℝ) - c.S0) / c.k := by
    unfold logOdds
    rw [pd_to_odds_odds_to_pd hoddsSnap_pos, hoddsDef,
      Real.log_mul (ne_of_gt hO0) (Real.exp_ne_zero _), Real.log_exp]
  have hlogpdc : logOdds (c.pd_clip pd) = Real.log c.O0 + (sEx - c.S0) / c.k := by
    unfold logOdds
    have hld : Real.log (pd_to_odds (c.pd_clip pd) / c.O0) =
        Real.log (pd_to_odds (c.pd_clip pd)) - Real.log c.O0 :=
      Real.log_div (ne_of_gt hodds_pos) (ne_of_gt hO0)
    have h6 : (sEx - c.S0) / c.k =
        Real.log (pd_to_odds (c.pd_clip pd)) - Real.log c.O0 := by
      rw [hsExDef]
      have h5 : c.S0 + c.k * Real.log (pd_to_odds (c.pd_clip pd) / c.O0) - c.S0 =
          c.k * Real.log (pd_to_odds (c.pd_clip pd) / c.O0) := by ring
      rw [h5, mul_div_cancel_left₀ _ (ne_of_gt hk), hld]
    linarith [h6]
  have hdist : |logOdds (odds_to_pd oddsSnap) - logOdds (c.pd_clip pd)| ≤
      1/2 / c.k := by
    rw [hlogq, hlogpdc]
    have heq : Real.log c.O0 + ((s : ℝ) - c.S0) / c.k -
        (Real.log c.O0 + (sEx - c.S0) / c.k) = ((s : ℝ) - sEx) / c.k := by
      field_simp
    rw [heq, abs_div, abs_of_pos hk]
    exact (div_le_div_right hk).mpr hsdist
  have hproj : |logOdds (c.pd_clip (odds_to_pd oddsSnap)) - logOdds (c.pd_clip pd)| ≤
      |logOdds (odds_to_pd oddsSnap) - logOdds (c.pd_clip pd)| := by
    by_cases h1 : odds_to_pd oddsSnap < c.pd_floor
    · have hcl : c.pd_clip (odds_to_pd oddsSnap) = c.pd_floor := by
        unfold Scorecard.pd_clip
        rw [min_eq_right (le_of_lt (lt_of_lt_of_le h1 hfc)), max_eq_left (le_of_lt h1)]
      rw [hcl]
      have hA : logOdds (c.pd_clip pd) ≤ logOdds c.pd_floor :=
        logOdds_le_logOdds hfl hpdcl hpdc1
      have hB : logOdds c.pd_floor ≤ logOdds (odds_to_pd oddsSnap) :=
        logOdds_le_logOdds hq0 (le_of_lt h1) (lt_of_le_of_lt hfc hce)
      rw [abs_of_nonneg (by linarith), abs_of_nonneg (by linarith)]
      linarith
    · by_cases h2 : c.pd_ceiling < odds_to_pd oddsSnap
      · have hcl : c.pd_clip (odds_to_pd oddsSnap) = c.pd_ceiling := by
          unfold Scorecard.pd_clip
          rw [min_eq_left (le_of_lt h2), max_eq_right hfc]
        rw [hcl]
        have hA : logOdds c.pd_ceiling ≤ logOdds (c.pd_clip pd) :=
          logOdds_le_logOdds hpdc0 hpdcu hce
        have hB : logOdds (odds_to_pd oddsSnap) ≤ logOdds c.pd_ceiling :=
          logOdds_le_logOdds (lt_of_lt_of_le hfl hfc) (le_of_lt h2) hq1
        rw [abs_of_nonpos (by linarith), abs_of_nonpos (by linarith)]
        linarith
      · push_neg at h1 h2
        have hcl : c.pd_clip (odds_to_pd oddsSnap) = odds_to_pd oddsSnap := by
          unfold Scorecard.pd_clip
          rw [min_eq_right h2, max_eq_right h1]
        rw [hcl]
  rw [hfinal]
  calc |logOdds (c.pd_clip (odds_to_pd oddsSnap)) - logOdds (c.pd_clip pd)|
      ≤ |logOdds (odds_to_pd oddsSnap) - logOdds (c.pd_clip pd)| := hproj
    _ ≤ 1/2 / c.k := hdist
    _ < Real.log 2 / c.PDO := by
        have hkeq : (1:ℝ)/2 / c.k = Real.log 2 / (2 * c.PDO) := by
          unfold Scorecard.k
          have h1 : c.PDO ≠ 0 := ne_of_gt hPDO
          have h2 : Real.log 2 ≠ 0 := ne_of_gt hlog2
          field_simp
        rw [hkeq]
        exact div_lt_div_of_pos_left hlog2 hPDO (by linarith)

/-- Witness for C6 at a concrete configuration and `pd = 1/2` (where the
clipped pd is 1/2, the odds are 1 and the exact score is `S0 = 600`, inside
`[0, 1000]`). -/
theorem score_roundtrip_within_one_point_witness :
    |logOdds (Scorecard.score_to_pd ⟨600, 1, 50, 1/4, 3/4, 0, 1000⟩
        (Scorecard.pd_to_score ⟨600, 1, 50, 1/4, 3/4, 0, 1000⟩ (1/2))) -
      logOdds (Scorecard.pd_clip ⟨600, 1, 50, 1/4, 3/4, 0, 1000⟩ (1/2))| <
      Real.log 2 / (⟨600, 1, 50, 1/4, 3/4, 0, 1000⟩ : Scorecard).PDO :=
  score_roundtrip_within_one_point ⟨600, 1, 50, 1/4, 3/4, 0, 1000⟩ (1/2)
    (by norm_num) (by norm_num) (by norm_num) (by norm_num) (by norm_num)
    (by norm_num) (by norm_num)
    (by norm_num [Scorecard.pd_clip, pd_to_odds, max_def, min_def, Real.log_one])
    (by norm_num [Scorecard.pd_clip, pd_to_odds, max_def, min_def, Real.log_one])

end ConsignP2P
